import Mathlib

/-!
Shallow embedding of the commission-ledger / COD-dues settlement engine of the
parking-marketplace backend (`payments/models.py`, `payments/services.py`).

Monetary values (`DecimalField` / Python `Decimal`) are modelled as exact
rationals `ℚ`; dates and timestamps as integers (days); database rows as
structures; database tables as lists of rows.  A Django method that raises is
modelled as a function returning `Except`; a method decorated with
`@transaction.atomic` rolls the database back to the pre-call state whenever
the exception propagates, so an `Except.error` result means the database keeps
its input value.
-/

namespace ParkingBackend

/-- Account status choices of `OwnerCommissionAccount.ACCOUNT_STATUS_CHOICES`
(`payments/models.py` lines 73-78). -/
inductive AccountStatus
| active
| blocked
| suspended
| closed
deriving DecidableEq, Repr

/-- Transaction type choices of `CommissionTransaction.TRANSACTION_TYPE_CHOICES`
(`payments/models.py` lines 177-185). -/
inductive TransactionType
| bookingCommission
| codCollection
| razorpayPayment
| dueSettlement
| adjustment
| refundType
| reversal
deriving DecidableEq, Repr

/-- Status choices of `CommissionTransaction.STATUS_CHOICES`
(`payments/models.py` lines 187-193). -/
inductive TransactionStatus
| pending
| settled
| failed
| cancelled
| reversed
deriving DecidableEq, Repr

/-- Status choices of `Payment.STATUS_CHOICES` (`payments/models.py` lines 346-353). -/
inductive PaymentStatus
| initiated
| pending
| completed
| failed
| refunded
| partRefunded
deriving DecidableEq, Repr

/-- Payment method choices of `Payment.PAYMENT_METHOD_CHOICES`
(`payments/models.py` lines 355-359). -/
inductive PaymentMethod
| cod
| razorpay
| wallet
deriving DecidableEq, Repr

/-- Status choices of `PayoutRequest.PAYOUT_STATUS_CHOICES`
(`payments/models.py` lines 472-479). -/
inductive PayoutStatus
| pending
| approved
| processing
| completed
| failed
| rejected
deriving DecidableEq, Repr

/-- Status choices of `Refund.REFUND_STATUS_CHOICES`
(`payments/models.py` lines 427-433). -/
inductive RefundStatus
| initiated
| processing
| completed
| failed
| cancelled
deriving DecidableEq, Repr

/-- The singleton `CommissionSettings` row (`payments/models.py` lines 12-62).
Fields not read by the modelled operations are omitted. -/
structure CommissionSettings where
  commission_percentage : ℚ
  minimum_commission : ℚ
  payment_processing_fee : ℚ
  due_days_threshold : Int
  block_dues_amount : ℚ
  auto_settle_enabled : Bool
  refund_days : Int
  refund_charges_percentage : ℚ
deriving DecidableEq, Repr

/-- One `OwnerCommissionAccount` row (`payments/models.py` lines 71-122).
Bank and tax fields, which no modelled operation reads or writes, are omitted. -/
structure OwnerCommissionAccount where
  total_earned : ℚ
  total_commission_deducted : ℚ
  current_balance : ℚ
  pending_dues : ℚ
  settled_dues : ℚ
  account_status : AccountStatus
  is_blocked : Bool
  blocked_reason : String
  blocked_at : Option Int
  unblocked_at : Option Int
  last_payout_date : Option Int
  last_payout_amount : Option ℚ
deriving DecidableEq, Repr

/-- One `CommissionTransaction` row (`payments/models.py` lines 175-232).
`payment` holds the id of the referenced `Payment` row; `payment` is a
`OneToOneField`, hence unique when present, and `idempotency_key` carries
`unique=True` (line 228). -/
structure CommissionTransaction where
  id : Nat
  transaction_type : TransactionType
  booking_amount : ℚ
  commission_percentage : ℚ
  commission_amount : ℚ
  processing_fee : ℚ
  net_amount : ℚ
  status : TransactionStatus
  notes : String
  idempotency_key : Option String
  payment : Option Nat
  settled_at : Option Int
deriving DecidableEq, Repr

/-- One `CommissionDue` row (`payments/models.py` lines 268-313).
`settled_via_transaction` holds the id of the settling transaction. -/
structure CommissionDue where
  id : Nat
  due_amount : ℚ
  commission_amount : ℚ
  is_settled : Bool
  settled_via_transaction : Option Nat
  due_date : Int
  expected_payment_date : Int
  actual_payment_date : Option Int
deriving DecidableEq, Repr

/-- One `Payment` row (`payments/models.py` lines 344-401). `created_at` is the
creation date in days, used by the refund-window check. -/
structure Payment where
  id : Nat
  amount : ℚ
  payment_method : PaymentMethod
  status : PaymentStatus
  razorpay_payment_id : Option String
  has_commission_applied : Bool
  commission_settled : Bool
  settlement_date : Option Int
  cod_due_amount : Option ℚ
  cod_due_created : Option Int
  created_at : Int
deriving DecidableEq, Repr

/-- One `Refund` row (`payments/models.py` lines 416-457); `payment` is a
`OneToOneField` with `related_name=refund`, so at most one refund row may
reference a given payment. -/
structure Refund where
  payment_id : Nat
  refund_amount : ℚ
  refund_charges : ℚ
  net_refund_amount : ℚ
  status : RefundStatus
deriving DecidableEq, Repr

/-- One `PayoutRequest` row (`payments/models.py` lines 470-513). -/
structure PayoutRequest where
  id : Nat
  amount : ℚ
  status : PayoutStatus
  bank_account_number : String
  bank_ifsc_code : String
  bank_holder_name : String
  razorpay_payout_id : Option String
  rejection_reason : String
  completed_at : Option Int
deriving DecidableEq, Repr

/-- `CommissionTransaction.calculate_commission` (`payments/models.py`
lines 246-265) with the settings row passed in, as every service call site
does (`get_settings` lazily creates the singleton, so it is always present):
commission is the percentage cut floored at the minimum, the processing fee is
a straight percentage, and the net amount is clamped at zero. -/
def calculate_commission (t : CommissionTransaction) (booking_amount : ℚ)
    (S : CommissionSettings) : CommissionTransaction :=
  let commission0 := booking_amount * S.commission_percentage / 100
  let commission := max commission0 S.minimum_commission
  let processing_fee := booking_amount * S.payment_processing_fee / 100
  let net_amount := booking_amount - commission - processing_fee
  { t with
    booking_amount := booking_amount
    commission_percentage := S.commission_percentage
    commission_amount := commission
    processing_fee := processing_fee
    net_amount := max net_amount 0 }

/-- C4: for every gross booking amount `G` and settings `S`,
`calculate_commission` computes `commission = max(G * commission_percentage / 100,
minimum_commission)`, `processing_fee = G * payment_processing_fee / 100` and
`net_amount = max(G - commission - processing_fee, 0)`, so the net amount is
never negative even when commission plus fee exceed `G`. -/
theorem calculate_commission_spec_c4 (t : CommissionTransaction) (G : ℚ)
    (S : CommissionSettings) :
    (calculate_commission t G S).commission_amount =
      max (G * S.commission_percentage / 100) S.minimum_commission ∧
    (calculate_commission t G S).processing_fee =
      G * S.payment_processing_fee / 100 ∧
    (calculate_commission t G S).net_amount =
      max (G - (calculate_commission t G S).commission_amount -
        (calculate_commission t G S).processing_fee) 0 ∧
    0 ≤ (calculate_commission t G S).net_amount := by
  refine ⟨rfl, rfl, rfl, ?_⟩
  exact le_max_right _ _

/-- `OwnerCommissionAccount.check_and_update_block_status` (`payments/models.py`
lines 137-153).  The method re-reads the settings singleton
(`CommissionSettings.objects.first()`); a missing singleton is modelled by the
`none` case.  When the pending dues reach the block threshold the account is
blocked (if not already) and the method reports `true`; otherwise it reports
`false` and changes nothing. -/
def check_and_update_block_status (settingsRow : Option CommissionSettings)
    (a : OwnerCommissionAccount) (now : Int) : OwnerCommissionAccount × Bool :=
  match settingsRow with
  | none => (a, false)
  | some S =>
    if S.block_dues_amount ≤ a.pending_dues then
      if a.is_blocked = false then
        ({ a with
            is_blocked := true
            account_status := .blocked
            blocked_reason := "Dues exceed " ++ toString S.block_dues_amount
            blocked_at := some now }, true)
      else (a, true)
    else (a, false)

/-- `OwnerCommissionAccount.unblock` (`payments/models.py` lines 155-163); the
`reason` argument is only logged. -/
def unblock (a : OwnerCommissionAccount) (_reason : String) (now : Int) :
    OwnerCommissionAccount :=
  { a with
    is_blocked := false
    account_status := .active
    blocked_reason := ""
    blocked_at := none
    unblocked_at := some now }

/-- `OwnerCommissionAccount.settle_pending_dues` (`payments/models.py`
lines 165-172): settles `min(pending_dues, amount)`, moving that quantity from
pending to settled dues and crediting the balance; the settled quantity is
returned. -/
def settle_pending_dues (a : OwnerCommissionAccount) (amount : ℚ) :
    OwnerCommissionAccount × ℚ :=
  let settled := min a.pending_dues amount
  ({ a with
      pending_dues := a.pending_dues - settled
      settled_dues := a.settled_dues + settled
      current_balance := a.current_balance + settled }, settled)

/-- C10: for every account and non-negative amount `a`, `settle_pending_dues`
settles exactly `s = min(pending_dues, a)`: it decrements `pending_dues` by
`s`, increments `settled_dues` and `current_balance` by `s`, returns `s`, and
the resulting `pending_dues` is never negative. -/
theorem settle_pending_dues_spec_c10 (a : OwnerCommissionAccount) (amt : ℚ)
    (hamt : 0 ≤ amt) :
    (settle_pending_dues a amt).2 = min a.pending_dues amt ∧
    (settle_pending_dues a amt).1.pending_dues =
      a.pending_dues - min a.pending_dues amt ∧
    (settle_pending_dues a amt).1.settled_dues =
      a.settled_dues + min a.pending_dues amt ∧
    (settle_pending_dues a amt).1.current_balance =
      a.current_balance + min a.pending_dues amt ∧
    0 ≤ (settle_pending_dues a amt).1.pending_dues := by
  refine ⟨rfl, rfl, rfl, rfl, ?_⟩
  have h := min_le_left a.pending_dues amt
  simp only [settle_pending_dues]
  linarith

/-- Witness for C10 at a concrete account: pending dues 100, settling 260
settles exactly 100 and leaves non-negative pending dues. -/
theorem settle_pending_dues_spec_c10_witness :
    (0 : ℚ) ≤ 260 ∧
    ((settle_pending_dues
        { total_earned := 0, total_commission_deducted := 0,
          current_balance := 0, pending_dues := 100, settled_dues := 0,
          account_status := .active, is_blocked := false, blocked_reason := "",
          blocked_at := none, unblocked_at := none, last_payout_date := none,
          last_payout_amount := none } 260).2 = min 100 260 ∧
      (settle_pending_dues
        { total_earned := 0, total_commission_deducted := 0,
          current_balance := 0, pending_dues := 100, settled_dues := 0,
          account_status := .active, is_blocked := false, blocked_reason := "",
          blocked_at := none, unblocked_at := none, last_payout_date := none,
          last_payout_amount := none } 260).1.pending_dues = 100 - min 100 260 ∧
      (settle_pending_dues
        { total_earned := 0, total_commission_deducted := 0,
          current_balance := 0, pending_dues := 100, settled_dues := 0,
          account_status := .active, is_blocked := false, blocked_reason := "",
          blocked_at := none, unblocked_at := none, last_payout_date := none,
          last_payout_amount := none } 260).1.settled_dues = 0 + min 100 260 ∧
      (settle_pending_dues
        { total_earned := 0, total_commission_deducted := 0,
          current_balance := 0, pending_dues := 100, settled_dues := 0,
          account_status := .active, is_blocked := false, blocked_reason := "",
          blocked_at := none, unblocked_at := none, last_payout_date := none,
          last_payout_amount := none } 260).1.current_balance = 0 + min 100 260 ∧
      0 ≤ (settle_pending_dues
        { total_earned := 0, total_commission_deducted := 0,
          current_balance := 0, pending_dues := 100, settled_dues := 0,
          account_status := .active, is_blocked := false, blocked_reason := "",
          blocked_at := none, unblocked_at := none, last_payout_date := none,
          last_payout_amount := none } 260).1.pending_dues) :=
  ⟨by norm_num,
   settle_pending_dues_spec_c10
     { total_earned := 0, total_commission_deducted := 0,
       current_balance := 0, pending_dues := 100, settled_dues := 0,
       account_status := .active, is_blocked := false, blocked_reason := "",
       blocked_at := none, unblocked_at := none, last_payout_date := none,
       last_payout_amount := none } 260 (by norm_num)⟩

/-- Database error raised by an `INSERT` that violates a uniqueness
constraint. -/
inductive DbError
| integrityError
deriving DecidableEq, Repr

/-- Inserting a `CommissionTransaction` row.  The table enforces
`idempotency_key` uniqueness (`payments/models.py` line 228) and, because
`payment` is a `OneToOneField` (line 207), uniqueness of the referenced
payment; both constraints ignore `NULL` values, as in SQL. -/
def insertTransaction (txs : List CommissionTransaction)
    (t : CommissionTransaction) : Except DbError (List CommissionTransaction) :=
  if t.idempotency_key ≠ none ∧
      ∃ u ∈ txs, u.idempotency_key = t.idempotency_key then
    .error .integrityError
  else if t.payment ≠ none ∧ ∃ u ∈ txs, u.payment = t.payment then
    .error .integrityError
  else
    .ok (txs ++ [t])

/-- Ordering of dues used by `order_by(due_date)`. -/
def dueLE (a b : CommissionDue) : Prop := a.due_date ≤ b.due_date

instance : DecidableRel dueLE := fun a b =>
  inferInstanceAs (Decidable (a.due_date ≤ b.due_date))

instance : IsTotal CommissionDue dueLE := ⟨fun a b => Int.le_total a.due_date b.due_date⟩

instance : IsTrans CommissionDue dueLE := ⟨fun _ _ _ h h2 => le_trans h h2⟩

/-- The unsettled dues of the owner in the order the auto-settlement loop
visits them: `CommissionDue.objects.filter(is_settled=False).order_by(due_date)`
(`payments/services.py` lines 180-183). -/
def sortedUnsettled (dues : List CommissionDue) : List CommissionDue :=
  List.insertionSort dueLE (dues.filter (fun d => d.is_settled = false))

/-- The field updates `due.save()` persists for a due settled by the automatic
loop (`payments/services.py` lines 189-192). -/
def markSettled (now : Int) (tid : Nat) (d : CommissionDue) : CommissionDue :=
  { d with
    is_settled := true
    settled_via_transaction := some tid
    actual_payment_date := some now }

/-- The auto-settlement loop body (`payments/services.py` lines 187-198): walk
the ordered unsettled dues; while the remaining available amount covers the
next due in full, mark it settled, deduct its amount from the available amount
and move it from the account's pending to settled dues; stop at the first due
that cannot be fully covered. -/
def settleLoop (now : Int) (tid : Nat) :
    List CommissionDue → ℚ → OwnerCommissionAccount →
      List CommissionDue × ℚ × OwnerCommissionAccount
  | [], amount_available, account => ([], amount_available, account)
  | due :: rest, amount_available, account =>
    if due.due_amount ≤ amount_available then
      let due' := markSettled now tid due
      let account' := { account with
        pending_dues := account.pending_dues - due.due_amount
        settled_dues := account.settled_dues + due.due_amount }
      let r := settleLoop now tid rest (amount_available - due.due_amount) account'
      (due' :: r.1, r.2.1, r.2.2)
    else
      (due :: rest, amount_available, account)

/-- Writing the rows updated by the settlement loop back into the dues table
(each `due.save()` updates its row in place). -/
def applyDueUpdates (dues updated : List CommissionDue) : List CommissionDue :=
  dues.map (fun d =>
    match updated.find? (fun u => u.id == d.id) with
    | some u => u
    | none => d)

/-- The auto-settlement step of `process_razorpay_payment`
(`payments/services.py` lines 179-198) as one operation on the dues table and
the account: visit the unsettled dues ordered by `due_date`, settle greedily,
and return the updated table, the left-over available amount and the updated
account. -/
def settleOldestFirst (now : Int) (tid : Nat) (dues : List CommissionDue)
    (amount_available : ℚ) (account : OwnerCommissionAccount) :
    List CommissionDue × ℚ × OwnerCommissionAccount :=
  let r := settleLoop now tid (sortedUnsettled dues) amount_available account
  (applyDueUpdates dues r.1, r.2.1, r.2.2)

/-- The slice of the database state that the payment-processing services read
and write: the commission-transaction table, the owner's ledger account, the
owner's dues table and the `Payment` row being processed. -/
structure LedgerState where
  transactions : List CommissionTransaction
  account : OwnerCommissionAccount
  dues : List CommissionDue
  payment : Payment
deriving DecidableEq, Repr

/-- The `CommissionTransaction` row that `process_razorpay_payment` persists
(`payments/services.py` lines 164-176): created with
`idempotency_key = "rzp_" + razorpay_payment_id` and linked to the payment,
then filled by `calculate_commission` and marked settled.  The initial create
and the following `save()` of the same row are collapsed into the single
inserted record. -/
def newRzpTransaction (st : LedgerState) (booking_total : ℚ)
    (S : CommissionSettings) (rzpId : String) (now : Int) :
    CommissionTransaction :=
  let t0 : CommissionTransaction := {
    id := st.transactions.length
    transaction_type := .razorpayPayment
    booking_amount := 0, commission_percentage := 0, commission_amount := 0
    processing_fee := 0, net_amount := 0
    status := .pending, notes := ""
    idempotency_key := some ("rzp_" ++ rzpId)
    payment := some st.payment.id
    settled_at := none }
  let t1 := calculate_commission t0 booking_total S
  { t1 with status := .settled, settled_at := some now }

/-- The auto-settlement guard of `process_razorpay_payment`
(`payments/services.py` lines 179-198): settle old COD dues only when
`settings.auto_settle_enabled`. -/
def autoSettleStep (S : CommissionSettings) (st : LedgerState)
    (t : CommissionTransaction) (now : Int) :
    List CommissionDue × ℚ × OwnerCommissionAccount :=
  if S.auto_settle_enabled then
    settleOldestFirst now t.id st.dues t.net_amount st.account
  else
    (st.dues, t.net_amount, st.account)

/-- The account-balance update of `process_razorpay_payment`
(`payments/services.py` lines 200-203): gross into `total_earned`, commission
into `total_commission_deducted`, net into `current_balance`. -/
def creditedAccount (a : OwnerCommissionAccount)
    (G commission net : ℚ) : OwnerCommissionAccount :=
  { a with
    total_earned := a.total_earned + G
    total_commission_deducted := a.total_commission_deducted + commission
    current_balance := a.current_balance + net }

/-- The unblock check of `process_razorpay_payment` (`payments/services.py`
lines 205-208): if the account is blocked and its pending dues are now below
the block threshold, call `unblock`. -/
def maybeAutoUnblock (S : CommissionSettings) (a : OwnerCommissionAccount)
    (now : Int) : OwnerCommissionAccount :=
  if a.is_blocked = true ∧ a.pending_dues < S.block_dues_amount then
    unblock a "Dues payment received - Balance restored" now
  else a

/-- The state written by `process_razorpay_payment` once the transaction row
has been inserted (`payments/services.py` lines 179-217): auto-settle old COD
dues when enabled, credit the account with gross, commission and net, unblock
the account when it is blocked and its pending dues have fallen below the
block threshold, and mark the payment completed. -/
def razorpayApply (S : CommissionSettings) (st : LedgerState)
    (booking_total : ℚ) (rzpId : String) (now : Int)
    (t : CommissionTransaction) (txs : List CommissionTransaction) :
    LedgerState :=
  let settle := autoSettleStep S st t now
  let account3 :=
    maybeAutoUnblock S
      (creditedAccount settle.2.2 booking_total t.commission_amount
        t.net_amount) now
  let payment' := { st.payment with
    status := .completed
    razorpay_payment_id := some rzpId
    has_commission_applied := true
    commission_settled := true
    settlement_date := some now }
  { transactions := txs, account := account3, dues := settle.1,
    payment := payment' }

/-- `CommissionService.process_razorpay_payment` (`payments/services.py`
lines 152-224), `@transaction.atomic`: insert the commission transaction
guarded by the `rzp_`-prefixed idempotency key, then apply the settlement,
credit, unblock-check and payment updates.  An `Except.error` result models
the raised exception: the atomic block rolls every write back, so the caller's
database keeps the input state. -/
def process_razorpay_payment (S : CommissionSettings) (st : LedgerState)
    (booking_total : ℚ) (rzpId : String) (now : Int) :
    Except DbError LedgerState :=
  let t := newRzpTransaction st booking_total S rzpId now
  match insertTransaction st.transactions t with
  | .error e => .error e
  | .ok txs => .ok (razorpayApply S st booking_total rzpId now t txs)

/-- The idempotency key of a COD collection transaction
(`payments/services.py` line 242): `"cod_" + booking_id + "_" + timestamp`. -/
def newCodKey (bookingId : Nat) (now : Int) : String :=
  "cod_" ++ toString bookingId ++ "_" ++ toString now

/-- The `CommissionTransaction` row persisted by `process_cod_payment`
(`payments/services.py` lines 236-248): keyed by `newCodKey`, filled by
`calculate_commission`, left `pending` since no cash has reached the
platform. -/
def newCodTransaction (st : LedgerState) (bookingId : Nat)
    (booking_total : ℚ) (S : CommissionSettings) (now : Int) :
    CommissionTransaction :=
  let t0 : CommissionTransaction := {
    id := st.transactions.length
    transaction_type := .codCollection
    booking_amount := 0, commission_percentage := 0, commission_amount := 0
    processing_fee := 0, net_amount := 0
    status := .pending, notes := ""
    idempotency_key := some (newCodKey bookingId now)
    payment := some st.payment.id
    settled_at := none }
  let t1 := calculate_commission t0 booking_total S
  { t1 with status := .pending }

/-- The state written by `process_cod_payment` once the transaction row has
been inserted (`payments/services.py` lines 250-279): create the due record,
add gross, commission and net due to the account, re-evaluate the block status
when the account is not already blocked, and mark the payment pending with the
COD due recorded. -/
def codApply (S : CommissionSettings) (st : LedgerState) (booking_total : ℚ)
    (now : Int) (t : CommissionTransaction)
    (txs : List CommissionTransaction) : LedgerState :=
  let due : CommissionDue := {
    id := st.dues.length
    due_amount := t.net_amount
    commission_amount := t.commission_amount
    is_settled := false
    settled_via_transaction := none
    due_date := now
    expected_payment_date := now + S.due_days_threshold
    actual_payment_date := none }
  let account1 := { st.account with
    total_earned := st.account.total_earned + booking_total
    total_commission_deducted :=
      st.account.total_commission_deducted + t.commission_amount
    pending_dues := st.account.pending_dues + t.net_amount }
  let account2 :=
    if account1.is_blocked = false
    then (check_and_update_block_status (some S) account1 now).1
    else account1
  let payment' := { st.payment with
    status := .pending
    has_commission_applied := true
    cod_due_amount := some t.net_amount
    cod_due_created := some now }
  { transactions := txs, account := account2, dues := st.dues ++ [due],
    payment := payment' }

/-- `CommissionService.process_cod_payment` (`payments/services.py`
lines 226-286), `@transaction.atomic`: insert the pending COD transaction,
create the due, update the account, re-evaluate the block status and mark the
payment pending.  An `Except.error` result models the raised exception with
the atomic rollback. -/
def process_cod_payment (S : CommissionSettings) (st : LedgerState)
    (bookingId : Nat) (booking_total : ℚ) (now : Int) :
    Except DbError LedgerState :=
  let t := newCodTransaction st bookingId booking_total S now
  match insertTransaction st.transactions t with
  | .error e => .error e
  | .ok txs => .ok (codApply S st booking_total now t txs)

/-- Sum of the `due_amount` fields of a list of dues. -/
def sumDue (l : List CommissionDue) : ℚ := (l.map (fun d => d.due_amount)).sum

theorem sumDue_nil : sumDue [] = 0 := rfl

theorem sumDue_cons (d : CommissionDue) (l : List CommissionDue) :
    sumDue (d :: l) = d.due_amount + sumDue l := by
  simp [sumDue]

/-- The settlement loop settles exactly a greedy prefix: there is a cut `k`
such that the first `k` dues are marked fully settled and the rest are
untouched, the settled amounts fit in the available amount, the loop stops at
the first due that does not fit, and the available amount and the account's
pending/settled dues change by exactly the settled sum. -/
theorem settleLoop_greedy (now : Int) (tid : Nat) :
    ∀ (l : List CommissionDue) (avail : ℚ) (acct : OwnerCommissionAccount),
      0 ≤ avail →
      ∃ k, k ≤ l.length ∧
        (settleLoop now tid l avail acct).1 =
          (l.take k).map (markSettled now tid) ++ l.drop k ∧
        sumDue (l.take k) ≤ avail ∧
        (k < l.length → avail < sumDue (l.take (k + 1))) ∧
        (settleLoop now tid l avail acct).2.1 = avail - sumDue (l.take k) ∧
        (settleLoop now tid l avail acct).2.2.pending_dues =
          acct.pending_dues - sumDue (l.take k) ∧
        (settleLoop now tid l avail acct).2.2.settled_dues =
          acct.settled_dues + sumDue (l.take k)
  | [], avail, acct, h => by
    refine ⟨0, by simp, ?_, ?_, ?_, ?_, ?_, ?_⟩ <;>
      simp [settleLoop, sumDue_nil, h]
  | d :: rest, avail, acct, h => by
    by_cases hd : d.due_amount ≤ avail
    · have h' : 0 ≤ avail - d.due_amount := by linarith
      obtain ⟨k', hk', h1, h2, h3, h4, h5, h6⟩ :=
        settleLoop_greedy now tid rest (avail - d.due_amount)
          { acct with
            pending_dues := acct.pending_dues - d.due_amount
            settled_dues := acct.settled_dues + d.due_amount } h'
      have hstep :
          settleLoop now tid (d :: rest) avail acct =
            (markSettled now tid d ::
              (settleLoop now tid rest (avail - d.due_amount)
                { acct with
                  pending_dues := acct.pending_dues - d.due_amount
                  settled_dues := acct.settled_dues + d.due_amount }).1,
             (settleLoop now tid rest (avail - d.due_amount)
                { acct with
                  pending_dues := acct.pending_dues - d.due_amount
                  settled_dues := acct.settled_dues + d.due_amount }).2.1,
             (settleLoop now tid rest (avail - d.due_amount)
                { acct with
                  pending_dues := acct.pending_dues - d.due_amount
                  settled_dues := acct.settled_dues + d.due_amount }).2.2) := by
        simp only [settleLoop]
        rw [if_pos hd]
      refine ⟨k' + 1, by simpa using Nat.succ_le_succ hk', ?_, ?_, ?_, ?_, ?_, ?_⟩
      · rw [hstep]
        simp [h1]
      · rw [List.take_succ_cons, sumDue_cons]
        linarith
      · intro hlt
        have hlt' : k' < rest.length := by simpa using hlt
        have := h3 hlt'
        rw [List.take_succ_cons, sumDue_cons]
        linarith
      · rw [hstep]
        simp only
        rw [h4, List.take_succ_cons, sumDue_cons]
        ring
      · rw [hstep]
        simp only
        rw [h5, List.take_succ_cons, sumDue_cons]
        simp only
        ring
      · rw [hstep]
        simp only
        rw [h6, List.take_succ_cons, sumDue_cons]
        simp only
        ring
    · have hstep :
          settleLoop now tid (d :: rest) avail acct =
            (d :: rest, avail, acct) := by
        simp only [settleLoop]
        rw [if_neg hd]
      refine ⟨0, by simp, ?_, ?_, ?_, ?_, ?_, ?_⟩ <;>
        simp [hstep, sumDue_nil, sumDue_cons, h]
      linarith [not_le.mp hd]

/-- C3: the automatic settlement of `process_razorpay_payment` visits the
unsettled dues ordered by `due_date` ascending, settles a greedy prefix of
them — each only in full while the remaining available amount covers it, with
no partial settlement — stops at the first due it cannot cover in full, and
decreases the owner's `pending_dues` by exactly the sum of the settled dues'
amounts (moving the same sum into `settled_dues`). -/
theorem auto_settle_greedy_c3 (now : Int) (tid : Nat)
    (dues : List CommissionDue) (avail : ℚ) (acct : OwnerCommissionAccount)
    (havail : 0 ≤ avail) :
    List.Sorted dueLE (sortedUnsettled dues) ∧
    ∃ k, k ≤ (sortedUnsettled dues).length ∧
      (settleLoop now tid (sortedUnsettled dues) avail acct).1 =
        ((sortedUnsettled dues).take k).map (markSettled now tid) ++
          (sortedUnsettled dues).drop k ∧
      sumDue ((sortedUnsettled dues).take k) ≤ avail ∧
      (k < (sortedUnsettled dues).length →
        avail < sumDue ((sortedUnsettled dues).take (k + 1))) ∧
      (settleOldestFirst now tid dues avail acct).2.1 =
        avail - sumDue ((sortedUnsettled dues).take k) ∧
      (settleOldestFirst now tid dues avail acct).2.2.pending_dues =
        acct.pending_dues - sumDue ((sortedUnsettled dues).take k) ∧
      (settleOldestFirst now tid dues avail acct).2.2.settled_dues =
        acct.settled_dues + sumDue ((sortedUnsettled dues).take k) := by
  constructor
  · exact List.sorted_insertionSort dueLE _
  · obtain ⟨k, hk, h1, h2, h3, h4, h5, h6⟩ :=
      settleLoop_greedy now tid (sortedUnsettled dues) avail acct havail
    exact ⟨k, hk, h1, h2, h3, h4, h5, h6⟩

/-- A concrete owner account with every counter at zero, used by the concrete
instantiations below. -/
def baseAccount : OwnerCommissionAccount :=
  { total_earned := 0, total_commission_deducted := 0, current_balance := 0,
    pending_dues := 0, settled_dues := 0, account_status := .active,
    is_blocked := false, blocked_reason := "", blocked_at := none,
    unblocked_at := none, last_payout_date := none, last_payout_amount := none }

/-- Concrete unsettled due of 100 with the earliest due date. -/
def dueA : CommissionDue :=
  { id := 1, due_amount := 100, commission_amount := 10, is_settled := false,
    settled_via_transaction := none, due_date := 1,
    expected_payment_date := 31, actual_payment_date := none }

/-- Concrete unsettled due of 150 with the middle due date. -/
def dueB : CommissionDue :=
  { id := 2, due_amount := 150, commission_amount := 15, is_settled := false,
    settled_via_transaction := none, due_date := 2,
    expected_payment_date := 32, actual_payment_date := none }

/-- Concrete unsettled due of 50 with the latest due date. -/
def dueC : CommissionDue :=
  { id := 3, due_amount := 50, commission_amount := 5, is_settled := false,
    settled_via_transaction := none, due_date := 3,
    expected_payment_date := 33, actual_payment_date := none }

/-- Witness for C3 at the spec's concrete example: dues of 100, 150 and 50 (in
due-date order, presented to the table out of order) against an incoming
amount of 260 settle the first two only and `pending_dues` drops by exactly
250, from 300 to 50. -/
theorem auto_settle_greedy_c3_witness :
    (0 : ℚ) ≤ 260 ∧
    (settleOldestFirst 9 7 [dueB, dueA, dueC] 260
        { baseAccount with pending_dues := 300 }).2.2.pending_dues = 300 - 250 ∧
    (settleOldestFirst 9 7 [dueB, dueA, dueC] 260
        { baseAccount with pending_dues := 300 }).1.map
          (fun d => d.is_settled) = [true, true, false] ∧
    (List.Sorted dueLE (sortedUnsettled [dueB, dueA, dueC]) ∧
      ∃ k, k ≤ (sortedUnsettled [dueB, dueA, dueC]).length ∧
        (settleLoop 9 7 (sortedUnsettled [dueB, dueA, dueC]) 260
            { baseAccount with pending_dues := 300 }).1 =
          ((sortedUnsettled [dueB, dueA, dueC]).take k).map (markSettled 9 7) ++
            (sortedUnsettled [dueB, dueA, dueC]).drop k ∧
        sumDue ((sortedUnsettled [dueB, dueA, dueC]).take k) ≤ 260 ∧
        (k < (sortedUnsettled [dueB, dueA, dueC]).length →
          260 < sumDue ((sortedUnsettled [dueB, dueA, dueC]).take (k + 1))) ∧
        (settleOldestFirst 9 7 [dueB, dueA, dueC] 260
            { baseAccount with pending_dues := 300 }).2.1 =
          260 - sumDue ((sortedUnsettled [dueB, dueA, dueC]).take k) ∧
        (settleOldestFirst 9 7 [dueB, dueA, dueC] 260
            { baseAccount with pending_dues := 300 }).2.2.pending_dues =
          ({ baseAccount with pending_dues := 300 } :
            OwnerCommissionAccount).pending_dues -
            sumDue ((sortedUnsettled [dueB, dueA, dueC]).take k) ∧
        (settleOldestFirst 9 7 [dueB, dueA, dueC] 260
            { baseAccount with pending_dues := 300 }).2.2.settled_dues =
          ({ baseAccount with pending_dues := 300 } :
            OwnerCommissionAccount).settled_dues +
            sumDue ((sortedUnsettled [dueB, dueA, dueC]).take k)) :=
  ⟨by norm_num,
   by norm_num [settleOldestFirst, sortedUnsettled, settleLoop, markSettled,
     applyDueUpdates, dueA, dueB, dueC, baseAccount, dueLE,
     List.insertionSort, List.orderedInsert],
   by norm_num [settleOldestFirst, sortedUnsettled, settleLoop, markSettled,
     applyDueUpdates, dueA, dueB, dueC, baseAccount, dueLE,
     List.insertionSort, List.orderedInsert],
   auto_settle_greedy_c3 9 7 [dueB, dueA, dueC] 260
     { baseAccount with pending_dues := 300 } (by norm_num)⟩

theorem settleLoop_balance (now : Int) (tid : Nat) :
    ∀ (l : List CommissionDue) (avail : ℚ) (acct : OwnerCommissionAccount),
      (settleLoop now tid l avail acct).2.2.current_balance =
        acct.current_balance
  | [], _, _ => rfl
  | d :: rest, avail, acct => by
    by_cases hd : d.due_amount ≤ avail
    · simp only [settleLoop, if_pos hd]
      exact settleLoop_balance now tid rest _ _
    · simp only [settleLoop, if_neg hd]

theorem settleLoop_earned (now : Int) (tid : Nat) :
    ∀ (l : List CommissionDue) (avail : ℚ) (acct : OwnerCommissionAccount),
      (settleLoop now tid l avail acct).2.2.total_earned = acct.total_earned
  | [], _, _ => rfl
  | d :: rest, avail, acct => by
    by_cases hd : d.due_amount ≤ avail
    · simp only [settleLoop, if_pos hd]
      exact settleLoop_earned now tid rest _ _
    · simp only [settleLoop, if_neg hd]

theorem settleLoop_deducted (now : Int) (tid : Nat) :
    ∀ (l : List CommissionDue) (avail : ℚ) (acct : OwnerCommissionAccount),
      (settleLoop now tid l avail acct).2.2.total_commission_deducted =
        acct.total_commission_deducted
  | [], _, _ => rfl
  | d :: rest, avail, acct => by
    by_cases hd : d.due_amount ≤ avail
    · simp only [settleLoop, if_pos hd]
      exact settleLoop_deducted now tid rest _ _
    · simp only [settleLoop, if_neg hd]

theorem settleLoop_blocked (now : Int) (tid : Nat) :
    ∀ (l : List CommissionDue) (avail : ℚ) (acct : OwnerCommissionAccount),
      (settleLoop now tid l avail acct).2.2.is_blocked = acct.is_blocked
  | [], _, _ => rfl
  | d :: rest, avail, acct => by
    by_cases hd : d.due_amount ≤ avail
    · simp only [settleLoop, if_pos hd]
      exact settleLoop_blocked now tid rest _ _
    · simp only [settleLoop, if_neg hd]

theorem settleOldestFirst_balance (now : Int) (tid : Nat)
    (dues : List CommissionDue) (avail : ℚ) (acct : OwnerCommissionAccount) :
    (settleOldestFirst now tid dues avail acct).2.2.current_balance =
      acct.current_balance := by
  simp [settleOldestFirst, settleLoop_balance]

theorem settleOldestFirst_earned (now : Int) (tid : Nat)
    (dues : List CommissionDue) (avail : ℚ) (acct : OwnerCommissionAccount) :
    (settleOldestFirst now tid dues avail acct).2.2.total_earned =
      acct.total_earned := by
  simp [settleOldestFirst, settleLoop_earned]

theorem settleOldestFirst_blocked (now : Int) (tid : Nat)
    (dues : List CommissionDue) (avail : ℚ) (acct : OwnerCommissionAccount) :
    (settleOldestFirst now tid dues avail acct).2.2.is_blocked =
      acct.is_blocked := by
  simp [settleOldestFirst, settleLoop_blocked]

theorem autoSettleStep_balance (S : CommissionSettings) (st : LedgerState)
    (t : CommissionTransaction) (now : Int) :
    (autoSettleStep S st t now).2.2.current_balance =
      st.account.current_balance := by
  rw [autoSettleStep]
  split_ifs
  · exact settleOldestFirst_balance _ _ _ _ _
  · rfl

theorem autoSettleStep_earned (S : CommissionSettings) (st : LedgerState)
    (t : CommissionTransaction) (now : Int) :
    (autoSettleStep S st t now).2.2.total_earned =
      st.account.total_earned := by
  rw [autoSettleStep]
  split_ifs
  · exact settleOldestFirst_earned _ _ _ _ _
  · rfl

theorem autoSettleStep_blocked (S : CommissionSettings) (st : LedgerState)
    (t : CommissionTransaction) (now : Int) :
    (autoSettleStep S st t now).2.2.is_blocked = st.account.is_blocked := by
  rw [autoSettleStep]
  split_ifs
  · exact settleOldestFirst_blocked _ _ _ _ _
  · rfl

theorem maybeAutoUnblock_balance (S : CommissionSettings)
    (a : OwnerCommissionAccount) (now : Int) :
    (maybeAutoUnblock S a now).current_balance = a.current_balance := by
  rw [maybeAutoUnblock]
  split_ifs <;> rfl

theorem maybeAutoUnblock_earned (S : CommissionSettings)
    (a : OwnerCommissionAccount) (now : Int) :
    (maybeAutoUnblock S a now).total_earned = a.total_earned := by
  rw [maybeAutoUnblock]
  split_ifs <;> rfl

theorem maybeAutoUnblock_pending (S : CommissionSettings)
    (a : OwnerCommissionAccount) (now : Int) :
    (maybeAutoUnblock S a now).pending_dues = a.pending_dues := by
  rw [maybeAutoUnblock]
  split_ifs <;> rfl

/-- The razorpay post-insert update credits `current_balance` with exactly the
transaction's net amount: the auto-settlement loop moves dues between pending
and settled buckets without touching the balance, and `unblock` does not touch
it either. -/
theorem razorpayApply_balance (S : CommissionSettings) (st : LedgerState)
    (G : ℚ) (rzpId : String) (now : Int) (t : CommissionTransaction)
    (txs : List CommissionTransaction) :
    (razorpayApply S st G rzpId now t txs).account.current_balance =
      st.account.current_balance + t.net_amount := by
  show (maybeAutoUnblock S _ now).current_balance = _
  rw [maybeAutoUnblock_balance]
  show (autoSettleStep S st t now).2.2.current_balance + t.net_amount = _
  rw [autoSettleStep_balance]

/-- The razorpay post-insert update adds exactly the gross booking amount to
`total_earned`. -/
theorem razorpayApply_earned (S : CommissionSettings) (st : LedgerState)
    (G : ℚ) (rzpId : String) (now : Int) (t : CommissionTransaction)
    (txs : List CommissionTransaction) :
    (razorpayApply S st G rzpId now t txs).account.total_earned =
      st.account.total_earned + G := by
  show (maybeAutoUnblock S _ now).total_earned = _
  rw [maybeAutoUnblock_earned]
  show (autoSettleStep S st t now).2.2.total_earned + G = _
  rw [autoSettleStep_earned]

/-- The transaction table written by the razorpay post-insert update is the
inserted table. -/
theorem razorpayApply_transactions (S : CommissionSettings) (st : LedgerState)
    (G : ℚ) (rzpId : String) (now : Int) (t : CommissionTransaction)
    (txs : List CommissionTransaction) :
    (razorpayApply S st G rzpId now t txs).transactions = txs := rfl

theorem newRzpTransaction_key (st : LedgerState) (G : ℚ)
    (S : CommissionSettings) (rzpId : String) (now : Int) :
    (newRzpTransaction st G S rzpId now).idempotency_key =
      some ("rzp_" ++ rzpId) := rfl

theorem newRzpTransaction_payment (st : LedgerState) (G : ℚ)
    (S : CommissionSettings) (rzpId : String) (now : Int) :
    (newRzpTransaction st G S rzpId now).payment = some st.payment.id := rfl

/-- Inserting a transaction whose idempotency key and payment link collide
with no row of the table appends it. -/
theorem insertTransaction_ok (txs : List CommissionTransaction)
    (t : CommissionTransaction)
    (hkey : ∀ u ∈ txs, u.idempotency_key ≠ t.idempotency_key)
    (hpay : ∀ u ∈ txs, u.payment ≠ t.payment) :
    insertTransaction txs t = .ok (txs ++ [t]) := by
  rw [insertTransaction, if_neg, if_neg]
  · rintro ⟨-, u, hu, h⟩
    exact hpay u hu h
  · rintro ⟨-, u, hu, h⟩
    exact hkey u hu h

/-- Inserting a transaction with a non-null idempotency key already present in
the table fails with an integrity error. -/
theorem insertTransaction_dup (txs : List CommissionTransaction)
    (t u : CommissionTransaction) (hu : u ∈ txs)
    (hkey : u.idempotency_key = t.idempotency_key)
    (hnone : t.idempotency_key ≠ none) :
    insertTransaction txs t = .error .integrityError := by
  rw [insertTransaction, if_pos ⟨hnone, u, hu, hkey⟩]

/-- C1: re-processing the same razorpay-capture event is idempotent.  From a
state whose transaction table has no row carrying the event's idempotency key
`rzp_<payment id>` and no row linked to the payment, the first
`process_razorpay_payment` succeeds, leaves exactly one transaction with that
key, credits `total_earned` with the gross amount and `current_balance` with
the net amount exactly once — and the duplicate delivery fails on the unique
idempotency key, rolling back atomically, so no second transaction and no
second credit are created. -/
theorem razorpay_idempotent_c1 (S : CommissionSettings) (st : LedgerState)
    (G : ℚ) (rzpId : String) (now now2 : Int)
    (hkey : ∀ u ∈ st.transactions,
      u.idempotency_key ≠ some ("rzp_" ++ rzpId))
    (hpay : ∀ u ∈ st.transactions, u.payment ≠ some st.payment.id) :
    ∃ st1, process_razorpay_payment S st G rzpId now = .ok st1 ∧
      st1.transactions.countP
        (fun u => decide (u.idempotency_key = some ("rzp_" ++ rzpId))) = 1 ∧
      st1.account.current_balance = st.account.current_balance +
        (newRzpTransaction st G S rzpId now).net_amount ∧
      st1.account.total_earned = st.account.total_earned + G ∧
      process_razorpay_payment S st1 G rzpId now2 =
        .error .integrityError := by
  set t := newRzpTransaction st G S rzpId now with ht
  have hins : insertTransaction st.transactions t =
      .ok (st.transactions ++ [t]) := by
    apply insertTransaction_ok
    · intro u hu
      rw [ht, newRzpTransaction_key]
      exact hkey u hu
    · intro u hu
      rw [ht, newRzpTransaction_payment]
      exact hpay u hu
  refine ⟨razorpayApply S st G rzpId now t (st.transactions ++ [t]), ?_, ?_, ?_, ?_, ?_⟩
  · rw [process_razorpay_payment, ← ht, hins]
  · rw [razorpayApply_transactions, List.countP_append]
    have h0 : st.transactions.countP
        (fun u => decide (u.idempotency_key = some ("rzp_" ++ rzpId))) = 0 := by
      rw [List.countP_eq_zero]
      intro u hu
      simpa using hkey u hu
    have h1 : List.countP
        (fun u => decide (u.idempotency_key = some ("rzp_" ++ rzpId))) [t] = 1 := by
      simp [List.countP, List.countP.go, ht, newRzpTransaction_key]
    rw [h0, h1]
  · rw [razorpayApply_balance]
  · rw [razorpayApply_earned]
  · rw [process_razorpay_payment]
    have hdup : insertTransaction
        (razorpayApply S st G rzpId now t (st.transactions ++ [t])).transactions
        (newRzpTransaction
          (razorpayApply S st G rzpId now t (st.transactions ++ [t]))
          G S rzpId now2) = .error .integrityError := by
      apply insertTransaction_dup _ _ t
      · rw [razorpayApply_transactions]
        exact List.mem_append_right _ (List.mem_singleton_self t)
      · rw [ht, newRzpTransaction_key, newRzpTransaction_key]
      · rw [newRzpTransaction_key]
        exact Option.some_ne_none _
    rw [hdup]

/-- Concrete settings row with the model's default values
(`payments/models.py` lines 14-60): commission 10%, minimum 50, processing fee
2.5%, due threshold 30 days, block threshold 10000, auto-settle on, refund
window 7 days, refund charges 2%. -/
def defaultSettings : CommissionSettings :=
  { commission_percentage := 10, minimum_commission := 50,
    payment_processing_fee := 5 / 2, due_days_threshold := 30,
    block_dues_amount := 10000, auto_settle_enabled := true,
    refund_days := 7, refund_charges_percentage := 2 }

/-- Concrete razorpay payment row awaiting capture. -/
def basePayment : Payment :=
  { id := 11, amount := 1000, payment_method := .razorpay,
    status := .initiated, razorpay_payment_id := none,
    has_commission_applied := false, commission_settled := false,
    settlement_date := none, cod_due_amount := none, cod_due_created := none,
    created_at := 0 }

/-- Concrete ledger slice: empty transaction and due tables, a fresh account
and the payment above. -/
def freshState : LedgerState :=
  { transactions := [], account := baseAccount, dues := [],
    payment := basePayment }

/-- Witness for C1: capturing razorpay payment `pay1` for a gross of 1000 on
the fresh state succeeds, and a duplicate delivery of the same event fails on
the idempotency key. -/
theorem razorpay_idempotent_c1_witness :
    (∀ u ∈ freshState.transactions,
      u.idempotency_key ≠ some ("rzp_" ++ "pay1")) ∧
    (∀ u ∈ freshState.transactions, u.payment ≠ some freshState.payment.id) ∧
    ∃ st1, process_razorpay_payment defaultSettings freshState 1000 "pay1" 5 =
        .ok st1 ∧
      st1.transactions.countP
        (fun u => decide (u.idempotency_key = some ("rzp_" ++ "pay1"))) = 1 ∧
      st1.account.current_balance = freshState.account.current_balance +
        (newRzpTransaction freshState 1000 defaultSettings "pay1" 5).net_amount ∧
      st1.account.total_earned = freshState.account.total_earned + 1000 ∧
      process_razorpay_payment defaultSettings st1 1000 "pay1" 6 =
        .error .integrityError :=
  ⟨by simp [freshState], by simp [freshState],
   razorpay_idempotent_c1 defaultSettings freshState 1000 "pay1" 5 6
     (by simp [freshState]) (by simp [freshState])⟩

/-- When the account entering the razorpay post-insert update is blocked, the
final account is unblocked exactly when its pending dues ended below the block
threshold (`payments/services.py` lines 205-208): `unblock` is called, setting
`is_blocked=false`, `account_status=active` and `unblocked_at`; otherwise the
account stays blocked. -/
theorem razorpayApply_unblock (S : CommissionSettings) (st : LedgerState)
    (G : ℚ) (rzpId : String) (now : Int) (t : CommissionTransaction)
    (txs : List CommissionTransaction)
    (hb : st.account.is_blocked = true) :
    ((razorpayApply S st G rzpId now t txs).account.pending_dues <
        S.block_dues_amount →
      (razorpayApply S st G rzpId now t txs).account.is_blocked = false ∧
      (razorpayApply S st G rzpId now t txs).account.account_status =
        .active ∧
      (razorpayApply S st G rzpId now t txs).account.unblocked_at =
        some now) ∧
    (S.block_dues_amount ≤
        (razorpayApply S st G rzpId now t txs).account.pending_dues →
      (razorpayApply S st G rzpId now t txs).account.is_blocked = true) := by
  have hacct : (razorpayApply S st G rzpId now t txs).account =
      maybeAutoUnblock S
        (creditedAccount (autoSettleStep S st t now).2.2 G
          t.commission_amount t.net_amount) now := rfl
  have hA2b : (creditedAccount (autoSettleStep S st t now).2.2 G
      t.commission_amount t.net_amount).is_blocked = true := by
    show (autoSettleStep S st t now).2.2.is_blocked = true
    rw [autoSettleStep_blocked]
    exact hb
  constructor
  · intro hp
    rw [hacct, maybeAutoUnblock_pending] at hp
    rw [hacct, maybeAutoUnblock, if_pos ⟨hA2b, hp⟩]
    exact ⟨rfl, rfl, rfl⟩
  · intro hp
    rw [hacct, maybeAutoUnblock_pending] at hp
    rw [hacct, maybeAutoUnblock,
      if_neg (fun hcon => absurd hp (not_le.mpr hcon.2))]
    exact hA2b

/-- Counterexample to C2 as stated: concrete blocked account with no pending
dues. -/
def blockedState : LedgerState :=
  { transactions := [],
    account := { baseAccount with
      is_blocked := true, account_status := .blocked,
      blocked_reason := "Dues exceed 10000", blocked_at := some 2 },
    dues := [], payment := basePayment }

/-- The account stored by a successful service call, `none` when the call
raised and rolled back. -/
def accountAfter (r : Except DbError LedgerState) :
    Option OwnerCommissionAccount :=
  r.toOption.map (fun s => s.account)

/-- Counterexample to C2: for the concrete blocked owner `blockedState` (no
pending dues, block threshold 10000), `process_razorpay_payment` does NOT
leave `is_blocked` true — the code auto-unblocks, setting `is_blocked=false`,
`account_status=active` and `unblocked_at`, without any explicit `unblock`
call by a caller. -/
theorem razorpay_autoUnblock_counterexample_c2 :
    blockedState.account.is_blocked = true ∧
    (accountAfter
      (process_razorpay_payment defaultSettings blockedState 1000 "pay42" 8)).map
        (fun a => (a.is_blocked, a.account_status, a.unblocked_at)) =
      some (false, .active, some 8) := by
  constructor
  · rfl
  · norm_num [process_razorpay_payment, newRzpTransaction,
      calculate_commission, insertTransaction, razorpayApply, autoSettleStep,
      creditedAccount, maybeAutoUnblock, settleOldestFirst, sortedUnsettled,
      settleLoop, applyDueUpdates, unblock, accountAfter, defaultSettings,
      blockedState, baseAccount, basePayment, Except.toOption]

/-- C2 amended: `process_razorpay_payment` DOES clear a blocked state on its
own.  For every owner account blocked before the call, after a successful run
the account is unblocked — `is_blocked=false`, `account_status=active`,
`unblocked_at=now` — exactly when its pending dues ended below
`settings.block_dues_amount`; the account remains blocked only when the dues
stay at or above the threshold.  No explicit caller-side `unblock` is
required. -/
theorem razorpay_autoUnblock_c2_amended (S : CommissionSettings)
    (st : LedgerState) (G : ℚ) (rzpId : String) (now : Int)
    (hkey : ∀ u ∈ st.transactions,
      u.idempotency_key ≠ some ("rzp_" ++ rzpId))
    (hpay : ∀ u ∈ st.transactions, u.payment ≠ some st.payment.id)
    (hb : st.account.is_blocked = true) :
    ∃ st1, process_razorpay_payment S st G rzpId now = .ok st1 ∧
      (st1.account.pending_dues < S.block_dues_amount →
        st1.account.is_blocked = false ∧
        st1.account.account_status = .active ∧
        st1.account.unblocked_at = some now) ∧
      (S.block_dues_amount ≤ st1.account.pending_dues →
        st1.account.is_blocked = true) := by
  have hins : insertTransaction st.transactions
      (newRzpTransaction st G S rzpId now) =
      .ok (st.transactions ++ [newRzpTransaction st G S rzpId now]) := by
    apply insertTransaction_ok
    · intro u hu
      rw [newRzpTransaction_key]
      exact hkey u hu
    · intro u hu
      rw [newRzpTransaction_payment]
      exact hpay u hu
  refine ⟨razorpayApply S st G rzpId now (newRzpTransaction st G S rzpId now)
      (st.transactions ++ [newRzpTransaction st G S rzpId now]), ?_, ?_⟩
  · rw [process_razorpay_payment, hins]
  · exact razorpayApply_unblock S st G rzpId now _ _ hb

/-- Witness for the amended C2 at the concrete blocked owner: the call
succeeds and the conditional unblock conclusions hold. -/
theorem razorpay_autoUnblock_c2_amended_witness :
    (∀ u ∈ blockedState.transactions,
      u.idempotency_key ≠ some ("rzp_" ++ "pay42")) ∧
    (∀ u ∈ blockedState.transactions,
      u.payment ≠ some blockedState.payment.id) ∧
    blockedState.account.is_blocked = true ∧
    ∃ st1, process_razorpay_payment defaultSettings blockedState 1000 "pay42" 8 =
        .ok st1 ∧
      (st1.account.pending_dues < defaultSettings.block_dues_amount →
        st1.account.is_blocked = false ∧
        st1.account.account_status = .active ∧
        st1.account.unblocked_at = some 8) ∧
      (defaultSettings.block_dues_amount ≤ st1.account.pending_dues →
        st1.account.is_blocked = true) :=
  ⟨by simp [blockedState], by simp [blockedState], rfl,
   razorpay_autoUnblock_c2_amended defaultSettings blockedState 1000 "pay42" 8
     (by simp [blockedState]) (by simp [blockedState]) rfl⟩

/-- When the pending dues have reached the block threshold and the account is
not yet blocked, `check_and_update_block_status` blocks it, recording the
reason and the blocking time (`payments/models.py` lines 143-150). -/
theorem check_block_sets (S : CommissionSettings)
    (a : OwnerCommissionAccount) (now : Int)
    (hge : S.block_dues_amount ≤ a.pending_dues)
    (hnb : a.is_blocked = false) :
    (check_and_update_block_status (some S) a now).1 =
      { a with
        is_blocked := true
        account_status := .blocked
        blocked_reason := "Dues exceed " ++ toString S.block_dues_amount
        blocked_at := some now } ∧
    (check_and_update_block_status (some S) a now).2 = true := by
  rw [check_and_update_block_status]
  simp only [if_pos hge, if_pos hnb]
  exact ⟨trivial, trivial⟩

theorem newCodTransaction_key (st : LedgerState) (bookingId : Nat)
    (G : ℚ) (S : CommissionSettings) (now : Int) :
    (newCodTransaction st bookingId G S now).idempotency_key =
      some (newCodKey bookingId now) := rfl

theorem newCodTransaction_payment (st : LedgerState) (bookingId : Nat)
    (G : ℚ) (S : CommissionSettings) (now : Int) :
    (newCodTransaction st bookingId G S now).payment =
      some st.payment.id := rfl

/-- C8: a COD payment that lifts the owner's pending dues to or past
`settings.block_dues_amount` blocks the account at the next block-status
evaluation, which `process_cod_payment` performs: the resulting account has
`is_blocked=true`, `account_status=blocked`, the blocking reason recorded and
`blocked_at` set, with `pending_dues` increased by exactly the transaction's
net amount. -/
theorem cod_block_threshold_c8 (S : CommissionSettings) (st : LedgerState)
    (bookingId : Nat) (G : ℚ) (now : Int)
    (hkey : ∀ u ∈ st.transactions,
      u.idempotency_key ≠ some (newCodKey bookingId now))
    (hpay : ∀ u ∈ st.transactions, u.payment ≠ some st.payment.id)
    (hnb : st.account.is_blocked = false)
    (hthr : S.block_dues_amount ≤ st.account.pending_dues +
      (newCodTransaction st bookingId G S now).net_amount) :
    ∃ st1, process_cod_payment S st bookingId G now = .ok st1 ∧
      st1.account.pending_dues = st.account.pending_dues +
        (newCodTransaction st bookingId G S now).net_amount ∧
      st1.account.is_blocked = true ∧
      st1.account.account_status = .blocked ∧
      st1.account.blocked_reason =
        "Dues exceed " ++ toString S.block_dues_amount ∧
      st1.account.blocked_at = some now := by
  have hins : insertTransaction st.transactions
      (newCodTransaction st bookingId G S now) =
      .ok (st.transactions ++ [newCodTransaction st bookingId G S now]) := by
    apply insertTransaction_ok
    · intro u hu
      rw [newCodTransaction_key]
      exact hkey u hu
    · intro u hu
      rw [newCodTransaction_payment]
      exact hpay u hu
  refine ⟨codApply S st G now (newCodTransaction st bookingId G S now)
      (st.transactions ++ [newCodTransaction st bookingId G S now]), ?_, ?_⟩
  · rw [process_cod_payment, hins]
  · have hacct : (codApply S st G now (newCodTransaction st bookingId G S now)
        (st.transactions ++ [newCodTransaction st bookingId G S now])).account =
        (check_and_update_block_status (some S)
          { st.account with
            total_earned := st.account.total_earned + G
            total_commission_deducted := st.account.total_commission_deducted +
              (newCodTransaction st bookingId G S now).commission_amount
            pending_dues := st.account.pending_dues +
              (newCodTransaction st bookingId G S now).net_amount } now).1 := by
      show (if _ = false then _ else _) = _
      rw [if_pos hnb]
    obtain ⟨hset, -⟩ := check_block_sets S
      { st.account with
        total_earned := st.account.total_earned + G
        total_commission_deducted := st.account.total_commission_deducted +
          (newCodTransaction st bookingId G S now).commission_amount
        pending_dues := st.account.pending_dues +
          (newCodTransaction st bookingId G S now).net_amount } now hthr hnb
    rw [hacct, hset]
    exact ⟨rfl, rfl, rfl, rfl, rfl⟩

/-- Settings of the spec's blocking scenario: commission 10% with minimum 50,
no processing fee, 30-day due window, block threshold 10000. -/
def scenarioSettings : CommissionSettings :=
  { commission_percentage := 10, minimum_commission := 50,
    payment_processing_fee := 0, due_days_threshold := 30,
    block_dues_amount := 10000, auto_settle_enabled := true,
    refund_days := 7, refund_charges_percentage := 2 }

/-- Owner one COD booking away from the block threshold: pending dues 9900. -/
def nearBlockState : LedgerState :=
  { transactions := [],
    account := { baseAccount with pending_dues := 9900 },
    dues := [], payment := basePayment }

/-- Witness for C8 at the spec's scenario: pending dues 9900, a COD booking of
gross 200 (commission floored at the 50 minimum, so net due 150) lifts the
dues to 10050, at or past the 10000 threshold, and the account transitions to
blocked. -/
theorem cod_block_threshold_c8_witness :
    (∀ u ∈ nearBlockState.transactions,
      u.idempotency_key ≠ some (newCodKey 5 3)) ∧
    (∀ u ∈ nearBlockState.transactions,
      u.payment ≠ some nearBlockState.payment.id) ∧
    nearBlockState.account.is_blocked = false ∧
    scenarioSettings.block_dues_amount ≤
      nearBlockState.account.pending_dues +
      (newCodTransaction nearBlockState 5 200 scenarioSettings 3).net_amount ∧
    ∃ st1, process_cod_payment scenarioSettings nearBlockState 5 200 3 =
        .ok st1 ∧
      st1.account.pending_dues = nearBlockState.account.pending_dues +
        (newCodTransaction nearBlockState 5 200 scenarioSettings 3).net_amount ∧
      st1.account.is_blocked = true ∧
      st1.account.account_status = .blocked ∧
      st1.account.blocked_reason =
        "Dues exceed " ++ toString scenarioSettings.block_dues_amount ∧
      st1.account.blocked_at = some 3 :=
  ⟨by simp [nearBlockState], by simp [nearBlockState], rfl,
   by norm_num [newCodTransaction, calculate_commission, scenarioSettings,
     nearBlockState, baseAccount, basePayment, newCodKey],
   cod_block_threshold_c8 scenarioSettings nearBlockState 5 200 3
     (by simp [nearBlockState]) (by simp [nearBlockState]) rfl
     (by norm_num [newCodTransaction, calculate_commission, scenarioSettings,
       nearBlockState, baseAccount, basePayment, newCodKey])⟩

/-- The settlement transaction recorded by `settle_cod_manually`
(`payments/services.py` lines 297-307): a `due_settlement` row over
`min(collected_amount, due.due_amount)`, settled immediately.  Both unique
columns are `NULL`, so the insert cannot conflict. -/
def dueSettlementTransaction (due : CommissionDue) (collected_amount : ℚ)
    (txs : List CommissionTransaction) (now : Int) : CommissionTransaction :=
  { id := txs.length
    transaction_type := .dueSettlement
    booking_amount := due.due_amount
    commission_percentage := 0, commission_amount := 0, processing_fee := 0
    net_amount := min collected_amount due.due_amount
    status := .settled, notes := "", idempotency_key := none, payment := none
    settled_at := some now }

/-- The due row written back by `settle_cod_manually` (`payments/services.py`
lines 309-315): marked settled only when the collected amount covers it in
full; otherwise the row is saved unchanged — in particular its `due_amount` is
NOT reduced. -/
def settledDueRow (due : CommissionDue) (collected_amount : ℚ) (tid : Nat)
    (now : Int) : CommissionDue :=
  if due.due_amount ≤ collected_amount then
    { due with
      is_settled := true
      actual_payment_date := some now
      settled_via_transaction := some tid }
  else due

/-- The account update of `settle_cod_manually` (`payments/services.py`
lines 317-321), with `s = min(collected_amount, due.due_amount)`. -/
def settlementAccount (acct : OwnerCommissionAccount) (s : ℚ) :
    OwnerCommissionAccount :=
  { acct with
    pending_dues := acct.pending_dues - s
    settled_dues := acct.settled_dues + s
    current_balance := acct.current_balance + s }

/-- The block re-check of `settle_cod_manually` (`payments/services.py`
lines 323-324). -/
def settlementBlockCheck (S : CommissionSettings)
    (a : OwnerCommissionAccount) (now : Int) : OwnerCommissionAccount :=
  if a.is_blocked = false ∨ a.pending_dues < S.block_dues_amount then
    (check_and_update_block_status (some S) a now).1
  else a

/-- `CommissionService.settle_cod_manually` (`payments/services.py`
lines 288-333): reject an already-settled due, record the settlement
transaction over `min(collected_amount, due.due_amount)`, mark the due settled
only on full collection, move the settled amount from pending to settled dues
and credit it to the balance, and re-check the block status. -/
def settle_cod_manually (S : CommissionSettings) (due : CommissionDue)
    (collected_amount : ℚ) (acct : OwnerCommissionAccount)
    (txs : List CommissionTransaction) (now : Int) :
    Except String
      (CommissionDue × OwnerCommissionAccount × CommissionTransaction ×
        List CommissionTransaction) :=
  if due.is_settled = true then .error "Due already settled"
  else
    let t := dueSettlementTransaction due collected_amount txs now
    .ok (settledDueRow due collected_amount t.id now,
         settlementBlockCheck S
           (settlementAccount acct (min collected_amount due.due_amount)) now,
         t, txs ++ [t])

/-- `check_and_update_block_status` never changes the monetary counters of the
account, only the blocking fields. -/
theorem check_block_money (o : Option CommissionSettings)
    (a : OwnerCommissionAccount) (now : Int) :
    (check_and_update_block_status o a now).1.pending_dues = a.pending_dues ∧
    (check_and_update_block_status o a now).1.settled_dues = a.settled_dues ∧
    (check_and_update_block_status o a now).1.current_balance =
      a.current_balance := by
  match o with
  | none => exact ⟨rfl, rfl, rfl⟩
  | some S =>
    rw [check_and_update_block_status]
    split_ifs <;> exact ⟨rfl, rfl, rfl⟩

theorem settlementBlockCheck_money (S : CommissionSettings)
    (a : OwnerCommissionAccount) (now : Int) :
    (settlementBlockCheck S a now).pending_dues = a.pending_dues ∧
    (settlementBlockCheck S a now).settled_dues = a.settled_dues ∧
    (settlementBlockCheck S a now).current_balance = a.current_balance := by
  rw [settlementBlockCheck]
  split_ifs
  · exact check_block_money (some S) a now
  · exact ⟨rfl, rfl, rfl⟩

/-- Counterexample to C6 as stated: due of 100 (`dueA`), collected amount 40.
The due remains unsettled, but its `due_amount` is NOT reduced to 60 — the
row is saved unchanged with `due_amount` still 100 (the code has no
partial-reduction write), while the ledger does move 40. -/
theorem manual_settlement_counterexample_c6 :
    dueA.is_settled = false ∧ dueA.due_amount = 100 ∧
    (settle_cod_manually defaultSettings dueA 40
        { baseAccount with pending_dues := 100 } [] 4).toOption.map
      (fun r => (r.1.due_amount, r.1.is_settled,
        r.2.1.pending_dues, r.2.1.settled_dues, r.2.1.current_balance)) =
      some (100, false, 60, 40, 40) := by
  refine ⟨rfl, rfl, ?_⟩
  norm_num [settle_cod_manually, dueSettlementTransaction, settledDueRow,
    settlementAccount, settlementBlockCheck, check_and_update_block_status,
    dueA, defaultSettings, baseAccount, Except.toOption]

/-- C6 amended: in manual due settlement with `collected_amount <
due.due_amount`, the due remains unsettled and entirely unchanged — its
`due_amount` is NOT reduced by the collected amount — while the owner's ledger
still changes by the settled amount `min(collected_amount, due.due_amount)`:
`pending_dues` decreases by it, `settled_dues` and `current_balance` increase
by it.  With `collected_amount >= due.due_amount` the due becomes fully
settled with `is_settled=true`, `actual_payment_date` set and `settled_via`
pointing at the settlement transaction, whose `net_amount` is the settled
amount. -/
theorem manual_settlement_c6_amended (S : CommissionSettings)
    (due : CommissionDue) (collected_amount : ℚ)
    (acct : OwnerCommissionAccount) (txs : List CommissionTransaction)
    (now : Int) (hun : due.is_settled = false) :
    ∃ due' acct' t txs',
      settle_cod_manually S due collected_amount acct txs now =
        .ok (due', acct', t, txs') ∧
      t.net_amount = min collected_amount due.due_amount ∧
      acct'.pending_dues =
        acct.pending_dues - min collected_amount due.due_amount ∧
      acct'.settled_dues =
        acct.settled_dues + min collected_amount due.due_amount ∧
      acct'.current_balance =
        acct.current_balance + min collected_amount due.due_amount ∧
      (collected_amount < due.due_amount → due' = due) ∧
      (due.due_amount ≤ collected_amount →
        due'.is_settled = true ∧
        due'.actual_payment_date = some now ∧
        due'.settled_via_transaction = some t.id ∧
        due'.due_amount = due.due_amount) := by
  have hne : ¬(due.is_settled = true) := by
    rw [hun]
    exact Bool.false_ne_true
  refine ⟨settledDueRow due collected_amount
      (dueSettlementTransaction due collected_amount txs now).id now,
    settlementBlockCheck S
      (settlementAccount acct (min collected_amount due.due_amount)) now,
    dueSettlementTransaction due collected_amount txs now,
    txs ++ [dueSettlementTransaction due collected_amount txs now],
    ?_, rfl, ?_, ?_, ?_, ?_, ?_⟩
  · rw [settle_cod_manually, if_neg hne]
  · rw [(settlementBlockCheck_money S _ now).1]
    rfl
  · rw [(settlementBlockCheck_money S _ now).2.1]
    rfl
  · rw [(settlementBlockCheck_money S _ now).2.2]
    rfl
  · intro hlt
    rw [settledDueRow, if_neg (not_le.mpr hlt)]
  · intro hge
    rw [settledDueRow, if_pos hge]
    exact ⟨rfl, rfl, rfl, rfl⟩

/-- Witness for the amended C6 in the full-collection case: due of 100
(`dueA`) collected with 120 becomes fully settled and the ledger moves
exactly 100. -/
theorem manual_settlement_c6_amended_witness :
    dueA.is_settled = false ∧
    ∃ due' acct' t txs',
      settle_cod_manually defaultSettings dueA 120
          { baseAccount with pending_dues := 100 } [] 4 =
        .ok (due', acct', t, txs') ∧
      t.net_amount = min 120 dueA.due_amount ∧
      acct'.pending_dues =
        ({ baseAccount with pending_dues := 100 } :
          OwnerCommissionAccount).pending_dues - min 120 dueA.due_amount ∧
      acct'.settled_dues =
        ({ baseAccount with pending_dues := 100 } :
          OwnerCommissionAccount).settled_dues + min 120 dueA.due_amount ∧
      acct'.current_balance =
        ({ baseAccount with pending_dues := 100 } :
          OwnerCommissionAccount).current_balance + min 120 dueA.due_amount ∧
      ((120 : ℚ) < dueA.due_amount → due' = dueA) ∧
      (dueA.due_amount ≤ 120 →
        due'.is_settled = true ∧
        due'.actual_payment_date = some 4 ∧
        due'.settled_via_transaction = some t.id ∧
        due'.due_amount = dueA.due_amount) :=
  ⟨rfl,
   manual_settlement_c6_amended defaultSettings dueA 120
     { baseAccount with pending_dues := 100 } [] 4 rfl⟩

/-- The ways `RefundService.initiate_refund` terminates before performing any
write (`payments/services.py` lines 341-357). -/
inductive RefundFailure
| paymentDoesNotExist
| alreadyRefunded
| relatedObjectDoesNotExist
| refundNoAttrOnInstance
deriving DecidableEq, Repr

/-- `RefundService.initiate_refund` (`payments/services.py` lines 339-410),
`@transaction.atomic`.  After fetching the payment and rejecting
`status == refunded`, line 351 evaluates `payment.refund.exists()`.
`Refund.payment` is a `OneToOneField` with `related_name=refund`
(`payments/models.py` line 435), so `payment.refund` is the reverse
one-to-one accessor: when no refund row references the payment it raises
`RelatedObjectDoesNotExist` (an `AttributeError` subclass), and when one does
it returns the `Refund` instance, which has no `exists` attribute, so the
call raises `AttributeError`.  Either way the method raises before the
refund-window check of lines 355-357, so the code of lines 355-405 (window
check, refund creation, gateway call, commission reversal, payment update) is
unreachable and no state is ever written: the function returns only errors. -/
def initiate_refund (payments : List Payment) (refunds : List Refund)
    (payment_id : Nat) (_refund_amount : Option ℚ) (_reason : String) :
    Except RefundFailure Unit :=
  match payments.find? (fun p => p.id == payment_id) with
  | none => .error .paymentDoesNotExist
  | some payment =>
    if payment.status = .refunded then .error .alreadyRefunded
    else
      match refunds.find? (fun r => r.payment_id == payment_id) with
      | none => .error .relatedObjectDoesNotExist
      | some _ => .error .refundNoAttrOnInstance

/-- C5 evaluated against the code: `initiate_refund` raises on EVERY payment
that exists and is not already marked refunded — including a payment with no
prior refund inside the refund window, which the claim says must pass these
checks.  With no refund row it raises `RelatedObjectDoesNotExist` at
`payment.refund.exists()`; with a refund row it raises `AttributeError`
instead of the claimed `AlreadyRefunded`; the `RefundWindowExpired` check is
never reached. -/
theorem initiate_refund_always_raises_c5 (payments : List Payment)
    (refunds : List Refund) (payment_id : Nat) (amt : Option ℚ)
    (reason : String) (p : Payment)
    (hfind : payments.find? (fun q => q.id == payment_id) = some p)
    (hst : ¬p.status = .refunded) :
    initiate_refund payments refunds payment_id amt reason =
        .error .relatedObjectDoesNotExist ∨
      initiate_refund payments refunds payment_id amt reason =
        .error .refundNoAttrOnInstance := by
  rw [initiate_refund, hfind]
  simp only [if_neg hst]
  cases refunds.find? (fun r => r.payment_id == payment_id) with
  | none => exact Or.inl rfl
  | some r => exact Or.inr rfl

/-- Witness for C5 at the failing input: `basePayment` (id 11, created today,
not refunded) with an empty refund table — the very case the claim says must
pass the refund checks — raises. -/
theorem initiate_refund_always_raises_c5_witness :
    ([basePayment].find? (fun q => q.id == 11) = some basePayment) ∧
    ¬basePayment.status = .refunded ∧
    (initiate_refund [basePayment] [] 11 none "customer_request" =
        .error .relatedObjectDoesNotExist ∨
      initiate_refund [basePayment] [] 11 none "customer_request" =
        .error .refundNoAttrOnInstance) :=
  ⟨rfl, by simp [basePayment],
   initiate_refund_always_raises_c5 [basePayment] [] 11 none
     "customer_request" basePayment rfl (by simp [basePayment])⟩

/-- Inserting a transaction with a `NULL` idempotency key but a payment link
already present in the table fails with an integrity error (the
`OneToOneField` uniqueness). -/
theorem insertTransaction_dupPayment (txs : List CommissionTransaction)
    (t u : CommissionTransaction) (hu : u ∈ txs)
    (hpay : u.payment = t.payment) (hnone : t.payment ≠ none)
    (hkey : t.idempotency_key = none) :
    insertTransaction txs t = .error .integrityError := by
  rw [insertTransaction, if_neg, if_pos ⟨hnone, u, hu, hpay⟩]
  rintro ⟨hk, -⟩
  exact hk hkey

/-- `RefundService._reverse_commission` (`payments/services.py`
lines 412-444).  The method looks up the original commission transaction with
`CommissionTransaction.objects.get(payment=payment)`, computes the
proportional reversal, and then calls `CommissionTransaction.objects.create`
with `payment=payment` — but `CommissionTransaction.payment` is a unique
`OneToOneField` (`payments/models.py` line 207) and the original transaction
already references that payment, so the insert raises `IntegrityError`.  The
surrounding bare `except` swallows every exception without re-raising
(the comment reads: do not raise, refund should complete even if reversal
fails), so the
account update never runs.  When no original transaction exists,
`objects.get` raises `DoesNotExist`, likewise swallowed. -/
def reverse_commission (txs : List CommissionTransaction)
    (acct : OwnerCommissionAccount) (payment_id : Nat)
    (refund_amount : ℚ) : List CommissionTransaction × OwnerCommissionAccount :=
  match txs.find? (fun u => u.payment == some payment_id) with
  | none => (txs, acct)
  | some origTrans =>
    let fractionToReverse :=
      if 0 < origTrans.net_amount then refund_amount / origTrans.net_amount
      else 0
    let reversed_commission :=
      origTrans.commission_amount * fractionToReverse
    let reversal : CommissionTransaction := {
      id := txs.length
      transaction_type := .reversal
      booking_amount := 0
      commission_percentage := 0
      commission_amount := -reversed_commission
      processing_fee := 0
      net_amount := -refund_amount
      status := .settled
      notes := "Reversal for refund"
      idempotency_key := none
      payment := some payment_id
      settled_at := none }
    match insertTransaction txs reversal with
    | .error _ => (txs, acct)
    | .ok txs' =>
      (txs',
       { acct with
         current_balance := acct.current_balance - refund_amount
         total_commission_deducted :=
           acct.total_commission_deducted - reversed_commission })

/-- C7 evaluated against the code: whenever an original commission transaction
for the payment exists — the only case in which `objects.get` succeeds —
`_reverse_commission` changes nothing: inserting the reversal violates the
unique `OneToOneField` on `CommissionTransaction.payment`, the
`IntegrityError` is swallowed, and so no reversal transaction is recorded and
the owner's `current_balance` and `total_commission_deducted` are left
untouched, contrary to the claimed proportional reversal. -/
theorem reverse_commission_noop_c7 (txs : List CommissionTransaction)
    (acct : OwnerCommissionAccount) (payment_id : Nat) (refund_amount : ℚ)
    (h : ∃ u ∈ txs, u.payment = some payment_id) :
    reverse_commission txs acct payment_id refund_amount = (txs, acct) := by
  cases hf : txs.find? (fun u => u.payment == some payment_id) with
  | none =>
    exfalso
    obtain ⟨u, hu, hup⟩ := h
    have := List.find?_eq_none.mp hf u hu
    rw [hup] at this
    simp at this
  | some tr =>
    have htp : tr.payment = some payment_id := by
      have := List.find?_some hf
      simpa using this
    have hmem : tr ∈ txs := List.mem_of_find?_eq_some hf
    rw [reverse_commission, hf]
    simp only
    rw [insertTransaction_dupPayment _ _ tr hmem htp
      (by simp) rfl]

/-- The original razorpay commission transaction used by the C7 witness:
gross 100, commission 10, net 90, linked to payment 11. -/
def originalTx : CommissionTransaction :=
  { id := 0, transaction_type := .razorpayPayment, booking_amount := 100,
    commission_percentage := 10, commission_amount := 10, processing_fee := 0,
    net_amount := 90, status := .settled, notes := "",
    idempotency_key := some "rzp_orig", payment := some 11,
    settled_at := some 1 }

/-- Witness for C7 at the failing input: payment 11 has the original
transaction `originalTx` (net 90, commission 10); reversing a net refund of 90
leaves the transaction table and the account exactly as they were. -/
theorem reverse_commission_noop_c7_witness :
    (∃ u ∈ [originalTx], u.payment = some 11) ∧
    reverse_commission [originalTx] baseAccount 11 90 =
      ([originalTx], baseAccount) :=
  ⟨⟨originalTx, by simp, rfl⟩,
   reverse_commission_noop_c7 [originalTx] baseAccount 11 90
     ⟨originalTx, by simp, rfl⟩⟩

/-- The ways `PayoutService.process_payout` terminates with an exception
(`payments/services.py` lines 481-535). -/
inductive PayoutError
| invalidStatus
| insufficientBalance
| gatewayFailure
deriving DecidableEq, Repr

/-- `PayoutService.process_payout` (`payments/services.py` lines 481-535),
`@transaction.atomic`, with the external gateway call passed in as its result:
only a `pending` payout within the balance is processed; on gateway success
the payout is completed and the balance is decremented afterwards
(lines 511-528).  On gateway failure the code sets `status=failed` and
saves it in the `finally` clause (lines 516-522), but the exception then
propagates out of the atomic decorator, so that write — like the earlier
`processing` save — is rolled back: the raised error leaves the database at
the caller's input state. -/
def process_payout_run (p : PayoutRequest) (acct : OwnerCommissionAccount)
    (gateway : Except String String) (now : Int) :
    Except PayoutError (PayoutRequest × OwnerCommissionAccount) :=
  if p.status ≠ .pending then .error .invalidStatus
  else if acct.current_balance < p.amount then .error .insufficientBalance
  else
    match gateway with
    | .error _ => .error .gatewayFailure
    | .ok payoutId =>
      .ok ({ p with
              status := .completed
              razorpay_payout_id := some payoutId
              completed_at := some now },
           { acct with
              current_balance := acct.current_balance - p.amount
              last_payout_date := some now
              last_payout_amount := some p.amount })

/-- The payout row and account actually stored in the database after
`process_payout` returns or raises: on an exception the atomic block rolls
every write back to the input rows. -/
def process_payout_db (p : PayoutRequest) (acct : OwnerCommissionAccount)
    (gateway : Except String String) (now : Int) :
    PayoutRequest × OwnerCommissionAccount :=
  match process_payout_run p acct gateway now with
  | .ok r => r
  | .error _ => (p, acct)

/-- C9 evaluated against the code: for a pending payout within the balance,
a failing gateway call makes `process_payout` raise, and the rolled-back
database keeps the payout row and account unchanged — the payout is still
`pending`, NOT `failed` as claimed (the `status=failed` save of the
`finally` clause is undone by the atomic rollback), and the balance is
unchanged; on gateway success the payout completes and the balance is
decremented by the payout amount only then. -/
theorem process_payout_gateway_c9 (p : PayoutRequest)
    (acct : OwnerCommissionAccount) (e : String) (now : Int)
    (hp : p.status = .pending) (hbal : p.amount ≤ acct.current_balance) :
    process_payout_run p acct (.error e) now = .error .gatewayFailure ∧
    process_payout_db p acct (.error e) now = (p, acct) ∧
    (process_payout_db p acct (.error e) now).1.status ≠ .failed ∧
    (process_payout_db p acct (.error e) now).2.current_balance =
      acct.current_balance ∧
    ∀ payoutId,
      (process_payout_db p acct (.ok payoutId) now).1.status = .completed ∧
      (process_payout_db p acct (.ok payoutId) now).2.current_balance =
        acct.current_balance - p.amount := by
  have hrunFail : process_payout_run p acct (.error e) now =
      .error .gatewayFailure := by
    rw [process_payout_run, if_neg (by simp [hp]), if_neg (not_lt.mpr hbal)]
  have hdbFail : process_payout_db p acct (.error e) now = (p, acct) := by
    rw [process_payout_db, hrunFail]
  refine ⟨hrunFail, hdbFail, ?_, ?_, ?_⟩
  · rw [hdbFail]
    simp [hp]
  · rw [hdbFail]
  · intro payoutId
    have hrunOk : process_payout_run p acct (.ok payoutId) now =
        .ok ({ p with
                status := .completed
                razorpay_payout_id := some payoutId
                completed_at := some now },
             { acct with
                current_balance := acct.current_balance - p.amount
                last_payout_date := some now
                last_payout_amount := some p.amount }) := by
      rw [process_payout_run, if_neg (by simp [hp]), if_neg (not_lt.mpr hbal)]
    rw [process_payout_db, hrunOk]
    exact ⟨rfl, rfl⟩

/-- The pending payout request of the C9 witness: 100 against a balance of
500. -/
def pendingPayout : PayoutRequest :=
  { id := 1, amount := 100, status := .pending,
    bank_account_number := "1234567890", bank_ifsc_code := "HDFC0000001",
    bank_holder_name := "Owner", razorpay_payout_id := none,
    rejection_reason := "", completed_at := none }

/-- Witness for C9 at the failing input: processing `pendingPayout` against a
balance of 500 with a failing gateway call leaves the payout `pending` (not
`failed`) and the balance untouched; with a succeeding call the balance drops
by 100. -/
theorem process_payout_gateway_c9_witness :
    pendingPayout.status = .pending ∧
    pendingPayout.amount ≤
      ({ baseAccount with current_balance := 500 } :
        OwnerCommissionAccount).current_balance ∧
    (process_payout_run pendingPayout
        { baseAccount with current_balance := 500 }
        (.error "gateway timeout") 6 = .error .gatewayFailure ∧
      process_payout_db pendingPayout
        { baseAccount with current_balance := 500 }
        (.error "gateway timeout") 6 =
        (pendingPayout, { baseAccount with current_balance := 500 }) ∧
      (process_payout_db pendingPayout
        { baseAccount with current_balance := 500 }
        (.error "gateway timeout") 6).1.status ≠ .failed ∧
      (process_payout_db pendingPayout
        { baseAccount with current_balance := 500 }
        (.error "gateway timeout") 6).2.current_balance =
        ({ baseAccount with current_balance := 500 } :
          OwnerCommissionAccount).current_balance ∧
      ∀ payoutId,
        (process_payout_db pendingPayout
          { baseAccount with current_balance := 500 }
          (.ok payoutId) 6).1.status = .completed ∧
        (process_payout_db pendingPayout
          { baseAccount with current_balance := 500 }
          (.ok payoutId) 6).2.current_balance =
          ({ baseAccount with current_balance := 500 } :
            OwnerCommissionAccount).current_balance - pendingPayout.amount) :=
  ⟨rfl, by norm_num [pendingPayout, baseAccount],
   process_payout_gateway_c9 pendingPayout
     { baseAccount with current_balance := 500 } "gateway timeout" 6 rfl
     (by norm_num [pendingPayout, baseAccount])⟩

end ParkingBackend
